import Mathlib

/-!
Verification of the session telemetry and response-assembly engine of the
chrome-devtools-mcp repository: the pagination engine, the accessibility
snapshot encoder with staleness-checked UIDs, session state (pages, dialogs,
throttling-derived timeouts) and the response builder.

Each definition is a shallow embedding of the corresponding TypeScript
function; external collaborators (browser pages, formatters, the file system)
are modelled as explicit parameters.  Fallible operations return `Except`;
operations of `McpContext` that mutate session state before throwing return
the mutated state alongside the outcome, mirroring JavaScript semantics where
mutations performed before a `throw` persist.
-/

namespace DevtoolsMcp

/-! ### Pagination engine -/

/-- `PaginationOptions` from `utils/types.ts`: both fields optional.
`pageIdx` is an `Int` so that the spec's interval check on `[0, totalPages)`
is representable. -/
structure PaginationOptions where
  pageSize : Option Nat := none
  pageIdx : Option Int := none
deriving Repr, DecidableEq

structure PaginationResult (T : Type) where
  items : List T
  currentPage : Nat
  totalPages : Nat
  startIndex : Nat
  endIndex : Nat
  hasNextPage : Bool
  hasPreviousPage : Bool
  invalidPage : Bool
deriving Repr, DecidableEq

/-- Modelled from the spec: the `paginate` function of `utils/pagination.js`
is not under `src/` (only its caller `McpResponse.#dataWithPagination` is).
Spec §4.1: if `pageSize` is omitted the page is the entire sequence (single
page, `totalPages = 1`); otherwise `totalPages = ceil(n / pageSize)` (minimum
1 even when `n = 0`), `pageIdx` defaults to 0, and a `pageIdx` outside
`[0, totalPages)` falls back to page 0 with the `invalidPage` flag set (never
errors).  The output is the slice for the resolved page, the resolved 0-based
page index, the total page count, the display range and next/previous-page
booleans. -/
def paginate {T : Type} (data : List T) (pagination : Option PaginationOptions) :
    PaginationResult T :=
  match pagination.bind (fun p => p.pageSize) with
  | none =>
    { items := data, currentPage := 0, totalPages := 1, startIndex := 0,
      endIndex := data.length, hasNextPage := false, hasPreviousPage := false,
      invalidPage := false }
  | some pageSize =>
    let n := data.length
    let totalPages := max 1 ((n + pageSize - 1) / pageSize)
    let requested : Int := ((pagination.bind (fun p => p.pageIdx)).getD 0)
    let invalid : Bool := requested < 0 || (totalPages : Int) ≤ requested
    let currentPage : Nat := if invalid then 0 else requested.toNat
    let startIndex := currentPage * pageSize
    let endIndex := min n (startIndex + pageSize)
    { items := (data.drop startIndex).take pageSize,
      currentPage := currentPage,
      totalPages := totalPages,
      startIndex := startIndex,
      endIndex := endIndex,
      hasNextPage := decide (currentPage + 1 < totalPages),
      hasPreviousPage := decide (0 < currentPage),
      invalidPage := invalid }

/-- The info lines and page slice produced by `McpResponse.#dataWithPagination`. -/
structure PaginatedData (T : Type) where
  info : List String
  items : List T
deriving Repr, DecidableEq

/-- `McpResponse.#dataWithPagination` from `McpResponse.ts`. -/
def dataWithPagination {T : Type} (data : List T) (pagination : Option PaginationOptions) :
    PaginatedData T :=
  let paginationResult := paginate data pagination
  let response : List String :=
    (if paginationResult.invalidPage then
      ["Invalid page number provided. Showing first page."]
    else []) ++
    ["Showing " ++ Nat.repr (paginationResult.startIndex + 1) ++ "-" ++
      Nat.repr paginationResult.endIndex ++ " of " ++ Nat.repr data.length ++
      " (Page " ++ Nat.repr (paginationResult.currentPage + 1) ++ " of " ++
      Nat.repr paginationResult.totalPages ++ ")."] ++
    (if pagination.isSome then
      (if paginationResult.hasNextPage then
        ["Next page: " ++ Nat.repr (paginationResult.currentPage + 1)]
      else []) ++
      (if paginationResult.hasPreviousPage then
        ["Previous page: " ++ Nat.repr (paginationResult.currentPage - 1)]
      else [])
    else [])
  { info := response, items := paginationResult.items }

/-! ### Accessibility snapshot encoder -/

/-- A raw accessibility node (`SerializedAXNode`) as consumed by
`McpContext.createTextSnapshot`.  `elementHandle` models the result of the
asynchronous `node.elementHandle()` resolution: `none` when the node cannot
be resolved to an element (e.g. a detached node). -/
inductive SerializedAXNode where
  | mk (role : String) (name : Option String) (value : Option String)
      (elementHandle : Option Nat) (children : List SerializedAXNode)

def SerializedAXNode.role : SerializedAXNode → String
  | .mk r _ _ _ _ => r

def SerializedAXNode.name : SerializedAXNode → Option String
  | .mk _ n _ _ _ => n

def SerializedAXNode.value : SerializedAXNode → Option String
  | .mk _ _ v _ _ => v

def SerializedAXNode.elementHandle : SerializedAXNode → Option Nat
  | .mk _ _ _ e _ => e

def SerializedAXNode.children : SerializedAXNode → List SerializedAXNode
  | .mk _ _ _ _ c => c

/-- `TextSnapshotNode` from `McpContext.ts`: a `SerializedAXNode` extended
with the assigned `id` and id-carrying children. -/
inductive TextSnapshotNode where
  | mk (id : String) (role : String) (name : Option String) (value : Option String)
      (elementHandle : Option Nat) (children : List TextSnapshotNode)

def TextSnapshotNode.id : TextSnapshotNode → String
  | .mk i _ _ _ _ _ => i

def TextSnapshotNode.role : TextSnapshotNode → String
  | .mk _ r _ _ _ _ => r

def TextSnapshotNode.name : TextSnapshotNode → Option String
  | .mk _ _ n _ _ _ => n

def TextSnapshotNode.value : TextSnapshotNode → Option String
  | .mk _ _ _ v _ _ => v

def TextSnapshotNode.elementHandle : TextSnapshotNode → Option Nat
  | .mk _ _ _ _ e _ => e

def TextSnapshotNode.children : TextSnapshotNode → List TextSnapshotNode
  | .mk _ _ _ _ _ c => c

/-- The UID assigned during the preorder traversal:
the template literal `{snapshotId}_{idCounter++}`. -/
def mkUid (snapshotId : Nat) (idCounter : Nat) : String :=
  Nat.repr snapshotId ++ "_" ++ Nat.repr idCounter

/-- JavaScript truthiness of an optional string: `undefined` and the empty
string are falsy. -/
def strTruthy : Option String → Bool
  | none => false
  | some s => s != ""

mutual

/-- The `assignIds` closure inside `McpContext.createTextSnapshot`: a preorder
traversal threading the `idCounter` and the insertion-ordered `idToNode` map
(children are inserted before their parent, exactly as in the source, where
`idToNode.set` runs after the recursive `children.map`).  The special case for
`role === 'option'` replaces the node's value by its name whenever the name is
truthy. -/
def assignIds (snapshotId : Nat) :
    SerializedAXNode → Nat → List (String × TextSnapshotNode) →
    TextSnapshotNode × Nat × List (String × TextSnapshotNode)
  | .mk role name value elementHandle children, idCounter, acc =>
    let id := mkUid snapshotId idCounter
    let (kids, idCounter', acc') := assignIdsList snapshotId children (idCounter + 1) acc
    -- The AXNode for an option doesn't contain its `value`; the source sets
    -- the option's text content (its name) as the value whenever truthy.
    let value' := if role = "option" ∧ strTruthy name then name else value
    let nodeWithId : TextSnapshotNode := .mk id role name value' elementHandle kids
    (nodeWithId, idCounter', acc' ++ [(id, nodeWithId)])

def assignIdsList (snapshotId : Nat) :
    List SerializedAXNode → Nat → List (String × TextSnapshotNode) →
    List TextSnapshotNode × Nat × List (String × TextSnapshotNode)
  | [], idCounter, acc => ([], idCounter, acc)
  | node :: rest, idCounter, acc =>
    let (node', idCounter', acc') := assignIds snapshotId node idCounter acc
    let (rest', idCounter'', acc'') := assignIdsList snapshotId rest idCounter' acc'
    (node' :: rest', idCounter'', acc'')

end

/-- `TextSnapshot` from `McpContext.ts`.  `idToNode` is the insertion-ordered
UID-to-node map; `snapshotId` is the stringified process-lifetime counter. -/
structure TextSnapshot where
  root : TextSnapshotNode
  idToNode : List (String × TextSnapshotNode)
  snapshotId : String

/-- The first component of `uid.split('_')`: the characters before the first
underscore (the whole string when no underscore occurs). -/
def uidSnapshotPart (uid : String) : String :=
  String.mk (uid.data.takeWhile (fun c => c != '_'))

/-! ### Session state (`McpContext`) -/

/-- A browser dialog as observed through the narrow interface.  `acceptFails`
and `dismissFails` model whether the corresponding external dialog primitive
would throw (e.g. the dialog was already handled outside MCP). -/
structure Dialog where
  dialogType : String
  message : String
  defaultValue : String
  acceptFails : Bool := false
  dismissFails : Bool := false
deriving Repr, DecidableEq

/-- An open browser page.  `dialogListeners` counts how many times the
context's `#dialogHandler` is currently subscribed via `page.on('dialog', …)`
(`page.off` removes one subscription, saturating at zero). -/
structure Page where
  pid : Nat
  url : String
  isClosed : Bool := false
  defaultTimeout : ℚ := 0
  defaultNavigationTimeout : ℚ := 0
  dialogListeners : Nat := 0
deriving Repr, DecidableEq

/-- The session-scoped mutable state of `McpContext`. The two `WeakMap`s are
modelled as association lists keyed by page identity (`pid`). -/
structure McpState where
  pages : List Page
  selectedPageIdx : Nat := 0
  textSnapshot : Option TextSnapshot := none
  nextSnapshotId : Nat := 1
  networkConditionsMap : List (Nat × String) := []
  cpuThrottlingRateMap : List (Nat × ℚ) := []
  dialog : Option Dialog := none

def DEFAULT_TIMEOUT : ℚ := 5000

def NAVIGATION_TIMEOUT : ℚ := 10000

/-- `getNetworkMultiplierFromString` from `McpContext.ts` (`null` is `none`;
any unrecognized label falls through to 1). -/
def getNetworkMultiplierFromString (condition : Option String) : ℚ :=
  match condition with
  | some "Fast 4G" => 1
  | some "Slow 4G" => 5 / 2
  | some "Fast 3G" => 5
  | some "Slow 3G" => 10
  | _ => 1

/-- `getExtensionFromMimeType` from `McpContext.ts`. -/
def getExtensionFromMimeType (mimeType : String) : Except String String :=
  match mimeType with
  | "image/png" => .ok "png"
  | "image/jpeg" => .ok "jpeg"
  | "image/webp" => .ok "webp"
  | _ => .error ("No mapping for Mime type " ++ mimeType ++ ".")

/-- `McpContext.saveTemporaryFile`: any error inside the `try` block — the
unsupported-MIME throw of `getExtensionFromMimeType` as well as a file-system
failure (modelled by `fsFails`) — is logged and rethrown as the generic
screenshot-saving error, which propagates to the caller. -/
def saveTemporaryFile (mimeType : String) (fsFails : Bool) : Except String String :=
  match
    (do
      let ext ← getExtensionFromMimeType mimeType
      if fsFails then throw "file system failure"
      pure ("screenshot." ++ ext) : Except String String)
  with
  | .ok filename => .ok filename
  | .error _ => .error "Could not save a screenshot to a file"

namespace McpState

/-- `McpContext.getSelectedPage`. -/
def getSelectedPage (st : McpState) : Except String Page :=
  match st.pages[st.selectedPageIdx]? with
  | none => .error "No page selected"
  | some page =>
    if page.isClosed then
      .error "The selected page has been closed. Call list_pages to see open pages."
    else .ok page

/-- `McpContext.getPageByIdx`. -/
def getPageByIdx (st : McpState) (idx : Nat) : Except String Page :=
  match st.pages[idx]? with
  | none => .error "No page found"
  | some page => .ok page

/-- Update every page with the given identity (in a well-formed state, the
unique such page). Models mutating a `Page` object held by the page list. -/
def updatePage (st : McpState) (pid : Nat) (f : Page → Page) : McpState :=
  { st with pages := st.pages.map (fun p => if p.pid = pid then f p else p) }

/-- `McpContext.getCpuThrottlingRate` for an already-resolved page:
`this.#cpuThrottlingRateMap.get(page) ?? 1`. -/
def cpuRateOf (st : McpState) (pid : Nat) : ℚ :=
  (st.cpuThrottlingRateMap.lookup pid).getD 1

/-- `McpContext.getNetworkConditions` for an already-resolved page:
`this.#networkConditionsMap.get(page) ?? null`. -/
def networkConditionsOf (st : McpState) (pid : Nat) : Option String :=
  st.networkConditionsMap.lookup pid

/-- `McpContext.#updateSelectedPageTimeouts`: re-derives the selected page's
default action timeout (base × CPU-throttling rate) and default navigation
timeout (base × network-condition multiplier). -/
def updateSelectedPageTimeouts (st : McpState) : Except String Unit × McpState :=
  match st.getSelectedPage with
  | .error e => (.error e, st)
  | .ok page =>
    let cpuMultiplier := st.cpuRateOf page.pid
    let st := st.updatePage page.pid
      (fun p => { p with defaultTimeout := DEFAULT_TIMEOUT * cpuMultiplier })
    let networkMultiplier :=
      getNetworkMultiplierFromString (st.networkConditionsOf page.pid)
    let st := st.updatePage page.pid
      (fun p => { p with defaultNavigationTimeout := NAVIGATION_TIMEOUT * networkMultiplier })
    (.ok (), st)

/-- `page.off('dialog', this.#dialogHandler)`. -/
def pageOffDialog (st : McpState) (pid : Nat) : McpState :=
  st.updatePage pid (fun p => { p with dialogListeners := p.dialogListeners - 1 })

/-- `page.on('dialog', this.#dialogHandler)`. -/
def pageOnDialog (st : McpState) (pid : Nat) : McpState :=
  st.updatePage pid (fun p => { p with dialogListeners := p.dialogListeners + 1 })

/-- `McpContext.setSelectedPageIdx`: unsubscribe the dialog handler from the
previously selected page, switch the index, subscribe on the newly selected
page, and re-derive the timeouts. -/
def setSelectedPageIdx (st : McpState) (idx : Nat) : Except String Unit × McpState :=
  match st.getSelectedPage with
  | .error e => (.error e, st)
  | .ok oldPage =>
    let st := st.pageOffDialog oldPage.pid
    let st := { st with selectedPageIdx := idx }
    match st.getSelectedPage with
    | .error e => (.error e, st)
    | .ok newPage =>
      let st := st.pageOnDialog newPage.pid
      st.updateSelectedPageTimeouts

/-- A dialog-opened event fired by the browser on the page `pid`: it reaches
the session state only through the `#dialogHandler` subscriptions of that
page. -/
def dialogFired (st : McpState) (pid : Nat) (d : Dialog) : McpState :=
  match st.pages.find? (fun p => p.pid = pid) with
  | some p => if 0 < p.dialogListeners then { st with dialog := some d } else st
  | none => st

def CLOSE_PAGE_ERROR : String :=
  "The last open page cannot be closed. It is fine to keep it open."

/-- `McpContext.closePage`. Closing the page itself is modelled by marking it
closed; the page-list rebuild happens later via `createPagesSnapshot`. -/
def closePage (st : McpState) (pageIdx : Nat) : Except String Unit × McpState :=
  if st.pages.length = 1 then (.error CLOSE_PAGE_ERROR, st)
  else
    match st.getPageByIdx pageIdx with
    | .error e => (.error e, st)
    | .ok page =>
      match st.setSelectedPageIdx 0 with
      | (.error e, st) => (.error e, st)
      | (.ok _, st) => (.ok (), st.updatePage page.pid (fun p => { p with isClosed := true }))

/-- `McpContext.setNetworkConditions`. -/
def setNetworkConditions (st : McpState) (conditions : Option String) :
    Except String Unit × McpState :=
  match st.getSelectedPage with
  | .error e => (.error e, st)
  | .ok page =>
    let st :=
      match conditions with
      | none =>
        { st with networkConditionsMap :=
            st.networkConditionsMap.filter (fun kv => kv.1 != page.pid) }
      | some c =>
        { st with networkConditionsMap :=
            (page.pid, c) :: st.networkConditionsMap.filter (fun kv => kv.1 != page.pid) }
    st.updateSelectedPageTimeouts

/-- `McpContext.setCpuThrottlingRate`. -/
def setCpuThrottlingRate (st : McpState) (rate : ℚ) : Except String Unit × McpState :=
  match st.getSelectedPage with
  | .error e => (.error e, st)
  | .ok page =>
    let st :=
      { st with cpuThrottlingRateMap :=
          (page.pid, rate) :: st.cpuThrottlingRateMap.filter (fun kv => kv.1 != page.pid) }
    st.updateSelectedPageTimeouts

/-- `McpContext.createTextSnapshot`.  The raw accessibility tree returned by
the external `page.accessibility.snapshot` call is passed in as `rawRoot`
(`none` models a `null` root, which leaves the current snapshot in place). -/
def createTextSnapshot (st : McpState) (rawRoot : Option SerializedAXNode) :
    Except String Unit × McpState :=
  match st.getSelectedPage with
  | .error e => (.error e, st)
  | .ok _page =>
    match rawRoot with
    | none => (.ok (), st)
    | some rootNode =>
      let snapshotId := st.nextSnapshotId
      let st := { st with nextSnapshotId := st.nextSnapshotId + 1 }
      let (rootNodeWithId, _, idToNode) := assignIds snapshotId rootNode 0 []
      let snap : TextSnapshot :=
        { root := rootNodeWithId, idToNode := idToNode,
          snapshotId := Nat.repr snapshotId }
      (.ok (), { st with textSnapshot := some snap })

def NO_SNAPSHOT_ERROR : String :=
  "No snapshot found. Use take_snapshot to capture one."

def STALE_SNAPSHOT_ERROR : String :=
  "This uid is coming from a stale snapshot. Call take_snapshot to get a fresh snapshot."

def NO_ELEMENT_ERROR : String := "No such element found in the snapshot"

/-- `McpContext.getElementByUid`: guards in source order — empty-or-missing
snapshot, snapshot-ID prefix mismatch (staleness), missing UID, and failed
element-handle resolution. -/
def getElementByUid (st : McpState) (uid : String) : Except String Nat :=
  match st.textSnapshot with
  | none => .error NO_SNAPSHOT_ERROR
  | some snap =>
    if snap.idToNode.length = 0 then .error NO_SNAPSHOT_ERROR
    else
      let snapshotId := uidSnapshotPart uid
      if snap.snapshotId ≠ snapshotId then .error STALE_SNAPSHOT_ERROR
      else
        match snap.idToNode.lookup uid with
        | none => .error NO_ELEMENT_ERROR
        | some node =>
          match node.elementHandle with
          | none => .error NO_ELEMENT_ERROR
          | some handle => .ok handle

end McpState

/-! ### Collected resources and the response builder (`McpResponse`) -/

/-- The result of a console argument's `arg.jsonValue()`: either a primitive
(whose `String(…)` rendering is stored) or an object (whose `JSON.stringify`
rendering is stored). A throwing accessor is modelled by the `Except.error`
case at the use site. -/
inductive JsVal where
  | prim (s : String)
  | obj (json : String)
deriving Repr, DecidableEq

instance : DecidableEq (Except String JsVal) := fun a b =>
  match a, b with
  | .ok x, .ok y => decidable_of_iff (x = y) (by simp)
  | .error x, .error y => decidable_of_iff (x = y) (by simp)
  | .ok _, .error _ => isFalse (by simp)
  | .error _, .ok _ => isFalse (by simp)

/-- An observed console resource: a `ConsoleMessage` (with its `type()`,
`text()` and the `jsonValue()` outcomes of its `args()`) or a page `Error`. -/
inductive ConsoleItem where
  | msg (msgType : String) (text : String) (args : List (Except String JsVal))
  | err (message : String)
deriving Repr, DecidableEq

/-- `ConsoleMessageData` from `formatters/consoleFormatter.ts`. -/
structure ConsoleMessageData where
  consoleMessageStableId : Nat
  msgType : String
  message : String
  args : List String
deriving Repr, DecidableEq

/-- One console argument as rendered in `McpResponse.handle`:
`await arg.jsonValue().catch(() => {})` resolves to `undefined` when the
accessor throws; `typeof undefined !== 'object'`, so the rendered value is
`String(undefined) = "undefined"`. -/
def stringifyConsoleArg (jsonValue : Except String JsVal) : String :=
  match jsonValue with
  | .error _ => "undefined"
  | .ok (.obj json) => json
  | .ok (.prim s) => s

/-- `consoleMessage.args().map(...)` from `McpResponse.handle`. -/
def collectConsoleArgs (args : List (Except String JsVal)) : List String :=
  args.map stringifyConsoleArg

/-- Building one `ConsoleMessageData` from a collected item, as in
`McpResponse.handle` (both the attached-message and the list branches). -/
def toConsoleMessageData (stableId : Nat) : ConsoleItem → ConsoleMessageData
  | .msg t text args =>
    { consoleMessageStableId := stableId, msgType := t, message := text,
      args := collectConsoleArgs args }
  | .err m =>
    { consoleMessageStableId := stableId, msgType := "error", message := m,
      args := [] }

/-- The console message-type filter from `McpResponse.handle`: applied only
when a non-empty `types` array was provided; an `Error` item matches the
`'error'` type. -/
def applyConsoleTypeFilter (types : Option (List String))
    (messages : List ConsoleItem) : List ConsoleItem :=
  match types with
  | some ts =>
    if ts.length ≠ 0 then
      messages.filter (fun m =>
        match m with
        | .msg t _ _ => ts.contains t
        | .err _ => ts.contains "error")
    else messages
  | none => messages

/-- The gather-phase console pipeline of `McpResponse.handle`: filter the
retrieved messages by type, then build `ConsoleMessageData` for each. -/
def gatherConsoleListData (messages : List ConsoleItem)
    (stableId : ConsoleItem → Nat) (types : Option (List String)) :
    List ConsoleMessageData :=
  (applyConsoleTypeFilter types messages).map
    (fun m => toConsoleMessageData (stableId m) m)

/-- An observed network request.  Header lists, the optional response (its
headers), the optional failure text and the redirect chain are carried so the
attached-request detail section renders from real data. -/
inductive HTTPRequest where
  | mk (url : String) (resourceType : String) (headers : List (String × String))
      (response : Option (List (String × String))) (failure : Option String)
      (redirectChain : List HTTPRequest)

def HTTPRequest.url : HTTPRequest → String
  | .mk u _ _ _ _ _ => u

def HTTPRequest.resourceType : HTTPRequest → String
  | .mk _ t _ _ _ _ => t

def HTTPRequest.headers : HTTPRequest → List (String × String)
  | .mk _ _ h _ _ _ => h

def HTTPRequest.response : HTTPRequest → Option (List (String × String))
  | .mk _ _ _ r _ _ => r

def HTTPRequest.failure : HTTPRequest → Option String
  | .mk _ _ _ _ f _ => f

def HTTPRequest.redirectChain : HTTPRequest → List HTTPRequest
  | .mk _ _ _ _ _ c => c

/-- The resource-type filter from `McpResponse.format`: applied only when a
non-empty `resourceTypes` array was provided. -/
def applyResourceTypeFilter (resourceTypes : Option (List String))
    (requests : List HTTPRequest) : List HTTPRequest :=
  match resourceTypes with
  | some ts =>
    if ts.length ≠ 0 then
      requests.filter (fun r => ts.contains r.resourceType)
    else requests
  | none => requests

/-- `#networkRequestsOptions` of `McpResponse` (with `include = true`). -/
structure NetworkOptions where
  pagination : Option PaginationOptions := none
  resourceTypes : Option (List String) := none
  includePreservedRequests : Option Bool := none
  networkRequestIdInDevToolsUI : Option Nat := none

/-- `#consoleDataOptions` of `McpResponse` (with `include = true`). -/
structure ConsoleOptions where
  pagination : Option PaginationOptions := none
  types : Option (List String) := none
  includePreservedMessages : Option Bool := none

/-- The externally supplied formatters (`formatters/*.ts`, outside the core):
the short request description, the verbose/short console renderings, the
status line and header-value rendering. -/
structure Formatters where
  shortDescriptionForRequest : HTTPRequest → Nat → Bool → String
  shortDescriptionPlain : HTTPRequest → Nat → String
  formatConsoleEventShort : ConsoleMessageData → String
  formatConsoleEventVerbose : ConsoleMessageData → String
  statusFromRequest : HTTPRequest → String
  formattedHeaderValue : List (String × String) → List String
  formattedRequestBody : HTTPRequest → Option String
  formattedResponseBody : List (String × String) → Option String

/-- The declared-intent state of one `McpResponse`. -/
structure McpResponseState where
  includePages : Bool := false
  attachedNetworkRequestId : Option Nat := none
  attachedConsoleMessageId : Option Nat := none
  textResponseLines : List String := []
  networkRequestsOptions : Option NetworkOptions := none
  consoleDataOptions : Option ConsoleOptions := none

namespace McpResponseState

/-- `McpResponse.appendResponseLine`. -/
def appendResponseLine (resp : McpResponseState) (value : String) : McpResponseState :=
  { resp with textResponseLines := resp.textResponseLines ++ [value] }

/-- `McpResponse.setIncludePages`. -/
def setIncludePages (resp : McpResponseState) (value : Bool) : McpResponseState :=
  { resp with includePages := value }

/-- `McpResponse.attachNetworkRequest`. -/
def attachNetworkRequest (resp : McpResponseState) (reqid : Nat) : McpResponseState :=
  { resp with attachedNetworkRequestId := some reqid }

/-- `McpResponse.attachConsoleMessage`. -/
def attachConsoleMessage (resp : McpResponseState) (msgid : Nat) : McpResponseState :=
  { resp with attachedConsoleMessageId := some msgid }

end McpResponseState

/-- JavaScript truthiness of `number | undefined`: `undefined` and `0` are
falsy. -/
def numTruthy : Option Nat → Bool
  | none => false
  | some n => n != 0

/-- The gather phase of `McpResponse.handle` for the attached network request:
skipped entirely (no `getNetworkRequestById` lookup, no body fetches) unless
`#attachedNetworkRequestId` is truthy. `getById` models
`context.getNetworkRequestById`, which throws for an unknown id. -/
def gatherAttachedRequestBodies (resp : McpResponseState)
    (getById : Nat → Except String HTTPRequest) (fmts : Formatters) :
    Except String (Option String × Option String) :=
  match resp.attachedNetworkRequestId with
  | some reqid =>
    if reqid != 0 then do
      let request ← getById reqid
      let requestBody := fmts.formattedRequestBody request
      let responseBody :=
        match request.response with
        | some response => fmts.formattedResponseBody response
        | none => none
      pure (requestBody, responseBody)
    else pure (none, none)
  | none => pure (none, none)

/-- The gather phase of `McpResponse.handle` for the attached console message:
skipped entirely unless `#attachedConsoleMessageId` is truthy. -/
def gatherAttachedConsoleData (resp : McpResponseState)
    (getById : Nat → Except String ConsoleItem) :
    Except String (Option ConsoleMessageData) :=
  match resp.attachedConsoleMessageId with
  | some msgid =>
    if msgid != 0 then do
      let message ← getById msgid
      pure (some (toConsoleMessageData msgid message))
    else pure none
  | none => pure none

/-- `'  '.repeat(indent)`. -/
def indentBy (n : Nat) : String := String.join (List.replicate n "  ")

/-- `McpResponse.#formatNetworkRequestData`: the attached-request detail
section, rendered only for a truthy `#attachedNetworkRequestId`. -/
def formatNetworkRequestData (resp : McpResponseState)
    (getById : Nat → Except String HTTPRequest) (stableId : HTTPRequest → Nat)
    (fmts : Formatters) (bodies : Option String × Option String) :
    Except String (List String) :=
  match resp.attachedNetworkRequestId with
  | none => .ok []
  | some id =>
    if id = 0 then .ok []
    else do
      let httpRequest ← getById id
      let requestBodyLines :=
        match bodies.1 with
        | some body => if body != "" then ["### Request Body", body] else []
        | none => []
      let responseHeaderLines :=
        match httpRequest.response with
        | some response => "### Response Headers" :: fmts.formattedHeaderValue response
        | none => []
      let responseBodyLines :=
        match bodies.2 with
        | some body => if body != "" then ["### Response Body", body] else []
        | none => []
      let failureLines :=
        match httpRequest.failure with
        | some failure => ["### Request failed with", failure]
        | none => []
      let chain := httpRequest.redirectChain
      let redirectLines :=
        if chain.length ≠ 0 then
          "### Redirect chain" ::
            (chain.reverse.enum.map (fun ir =>
              indentBy ir.1 ++ fmts.shortDescriptionPlain ir.2 (stableId ir.2)))
        else []
      pure
        (["## Request " ++ httpRequest.url,
          "Status:  " ++ fmts.statusFromRequest httpRequest,
          "### Request Headers"] ++
          fmts.formattedHeaderValue httpRequest.headers ++
          requestBodyLines ++ responseHeaderLines ++ responseBodyLines ++
          failureLines ++ redirectLines)

/-- `McpResponse.#formatConsoleData`: the attached-console-message detail
section. -/
def formatConsoleData (data : Option ConsoleMessageData) (fmts : Formatters) :
    List String :=
  match data with
  | none => []
  | some d => [fmts.formatConsoleEventVerbose d]

/-- The network-requests list section of `McpResponse.format`: resource-type
filtering happens before `#dataWithPagination` is invoked. -/
def formatNetworkSection (requests : List HTTPRequest) (opts : NetworkOptions)
    (stableId : HTTPRequest → Nat) (fmts : Formatters) : List String :=
  let requests := applyResourceTypeFilter opts.resourceTypes requests
  "## Network requests" ::
    (if requests.length ≠ 0 then
      let data := dataWithPagination requests opts.pagination
      data.info ++
        data.items.map (fun request =>
          fmts.shortDescriptionForRequest request (stableId request)
            (opts.networkRequestIdInDevToolsUI == some (stableId request)))
    else ["No requests found."])

/-- The console-messages list section of `McpResponse.format`: paginates the
`consoleListData` computed during the gather phase (already filtered). -/
def formatConsoleSection (consoleListData : Option (List ConsoleMessageData))
    (opts : ConsoleOptions) (fmts : Formatters) : List String :=
  let messages := consoleListData.getD []
  "## Console messages" ::
    (if messages.length ≠ 0 then
      let data := dataWithPagination messages opts.pagination
      data.info ++ data.items.map fmts.formatConsoleEventShort
    else ["<no console messages found>"])

/-- The gather-then-render console pipeline for the list section
(`McpResponse.handle` filtering followed by `McpResponse.format`
pagination). -/
def consoleListPipeline (messages : List ConsoleItem)
    (stableId : ConsoleItem → Nat) (opts : ConsoleOptions) (fmts : Formatters) :
    List String :=
  formatConsoleSection (some (gatherConsoleListData messages stableId opts.types))
    opts fmts

/-! ### Tool handlers -/

/-- `close_page` tool handler (`tools/pages.ts`): the last-page condition is
appended as response text, every other error propagates; the pages section is
requested afterwards in both non-throwing paths. -/
def closePageHandler (st : McpState) (resp : McpResponseState) (pageIdx : Nat) :
    Except String (McpState × McpResponseState) :=
  match st.closePage pageIdx with
  | (.ok _, st) => .ok (st, resp.setIncludePages true)
  | (.error e, st) =>
    if e = McpState.CLOSE_PAGE_ERROR then
      .ok (st, (resp.appendResponseLine e).setIncludePages true)
    else .error e

/-- `context.getDevToolsData()` result, as consumed by `get_network_request`. -/
structure DevToolsData where
  requestId : Option Nat := none
deriving Repr, DecidableEq

/-- The DevTools-UI fallback branch of the `get_network_request` handler:
`data?.requestId` is truthy only for a present, nonzero id. -/
def getNetworkRequestDevToolsFallback (devToolsData : Option DevToolsData)
    (resp : McpResponseState) : McpResponseState :=
  match devToolsData with
  | some data =>
    match data.requestId with
    | some rid =>
      if rid != 0 then resp.attachNetworkRequest rid
      else resp.appendResponseLine "Nothing is currently selected in DevTools UI."
    | none => resp.appendResponseLine "Nothing is currently selected in DevTools UI."
  | none => resp.appendResponseLine "Nothing is currently selected in DevTools UI."

/-- `get_network_request` tool handler (`tools/network.ts`): a truthy `reqid`
is attached directly; otherwise the request currently selected in the
DevTools UI is looked up and attached when truthy. -/
def getNetworkRequestHandler (reqid : Option Nat) (devToolsData : Option DevToolsData)
    (resp : McpResponseState) : McpResponseState :=
  match reqid with
  | some r =>
    if r != 0 then resp.attachNetworkRequest r
    else getNetworkRequestDevToolsFallback devToolsData resp
  | none => getNetworkRequestDevToolsFallback devToolsData resp

/-- `handle_dialog` actions. -/
inductive DialogAction where
  | accept
  | dismiss
deriving Repr, DecidableEq

/-- The external `dialog.accept(promptText)` / `dialog.dismiss()` primitives;
their failure is controlled by the dialog's flags. -/
def attemptDialogAction (d : Dialog) (action : DialogAction) : Except String Unit :=
  match action with
  | .accept => if d.acceptFails then .error "Failed to accept: dialog already handled" else .ok ()
  | .dismiss => if d.dismissFails then .error "Failed to dismiss: dialog already handled" else .ok ()

/-- `handle_dialog` tool handler (`tools/pages.ts`).  A failure of the
underlying accept/dismiss call is caught and logged (returned in the logger
trace, never in the response), the success line is appended regardless, and
the dialog is cleared. -/
def handleDialogHandler (st : McpState) (resp : McpResponseState)
    (action : DialogAction) (promptText : Option String) :
    Except String (McpState × McpResponseState × List String) :=
  match st.dialog with
  | none => .error "No open dialog found"
  | some dialog =>
    let _ := promptText
    let logged : List String :=
      match attemptDialogAction dialog action with
      | .error err => [err]
      | .ok _ => []
    let resp :=
      match action with
      | .accept => resp.appendResponseLine "Successfully accepted the dialog"
      | .dismiss => resp.appendResponseLine "Successfully dismissed the dialog"
    let st := { st with dialog := none }
    .ok (st, resp.setIncludePages true, logged)

/-- The success line appended by the `handle_dialog` handler for each
action. -/
def dialogSuccessLine : DialogAction → String
  | .accept => "Successfully accepted the dialog"
  | .dismiss => "Successfully dismissed the dialog"

/-- Well-formedness: page identities within the page list are distinct
(distinct `Page` objects in the JavaScript list). -/
abbrev pidsNodup (st : McpState) : Prop := (st.pages.map Page.pid).Nodup

/-- The dialog-capture subscription invariant: the context's `#dialogHandler`
is subscribed exactly once on the selected page and not at all on any other
page (stated positionally as a decidable list equation). -/
abbrev dialogListenerInv (st : McpState) : Prop :=
  st.pages.map Page.dialogListeners =
    (List.range st.pages.length).map (fun i => if i = st.selectedPageIdx then 1 else 0)

/-- Decoding a most-significant-first decimal digit string back into a
number; used to reason about the `{snapshotId}_{index}` UID format. -/
def decodeDigits : List Char → Nat
  | [] => 0
  | c :: cs => (c.toNat - 48) * 10 ^ cs.length + decodeDigits cs

end DevtoolsMcp

namespace DevtoolsMcp

/-! ### Helper lemmas about decimal digit strings -/

theorem digitChar_eq_star (k : Nat) (h : 16 ≤ k) : Nat.digitChar k = '*' := by
  unfold Nat.digitChar
  repeat rw [if_neg (by omega)]

theorem digitChar_ne_underscore (k : Nat) : Nat.digitChar k ≠ '_' := by
  rcases Nat.lt_or_ge k 16 with h | h
  · interval_cases k <;> decide
  · rw [digitChar_eq_star k h]; decide

theorem digitChar_toNat (k : Nat) (h : k < 10) : (Nat.digitChar k).toNat = 48 + k := by
  interval_cases k <;> decide

theorem toDigitsCore_ne_underscore (fuel n : Nat) (ds : List Char)
    (hds : ∀ c ∈ ds, c ≠ '_') : ∀ c ∈ Nat.toDigitsCore 10 fuel n ds, c ≠ '_' := by
  induction fuel generalizing n ds with
  | zero => simpa [Nat.toDigitsCore] using hds
  | succ fuel ih =>
    have hcons : ∀ c ∈ Nat.digitChar (n % 10) :: ds, c ≠ '_' := by
      intro c hc
      rcases List.mem_cons.mp hc with h | h
      · subst h; exact digitChar_ne_underscore _
      · exact hds c h
    simp only [Nat.toDigitsCore]
    split
    · exact hcons
    · exact ih _ _ hcons

theorem repr_ne_underscore (n : Nat) : ∀ c ∈ (Nat.repr n).data, c ≠ '_' := by
  intro c hc
  exact toDigitsCore_ne_underscore (n + 1) n [] (by simp) c hc

theorem decode_toDigitsCore (fuel : Nat) :
    ∀ (n : Nat) (ds : List Char), n < fuel →
      decodeDigits (Nat.toDigitsCore 10 fuel n ds) =
        n * 10 ^ ds.length + decodeDigits ds := by
  induction fuel with
  | zero => intro n ds h; omega
  | succ fuel ih =>
    intro n ds h
    have hmod : n % 10 < 10 := Nat.mod_lt _ (by decide)
    simp only [Nat.toDigitsCore]
    split
    · rename_i hdiv
      have hn : n % 10 = n := by omega
      simp only [decodeDigits]
      rw [digitChar_toNat _ hmod, Nat.add_sub_cancel_left, hn]
    · rename_i hdiv
      have hlt : n / 10 < fuel := by
        have h1 : n / 10 < n := Nat.div_lt_self (by omega) (by decide)
        omega
      rw [ih (n / 10) (Nat.digitChar (n % 10) :: ds) hlt]
      simp only [decodeDigits, List.length_cons, digitChar_toNat _ hmod,
        Nat.add_sub_cancel_left]
      conv_rhs => rw [show n = 10 * (n / 10) + n % 10 from (Nat.div_add_mod n 10).symm]
      rw [pow_succ]
      ring

theorem decode_repr (n : Nat) : decodeDigits (Nat.repr n).data = n := by
  have h := decode_toDigitsCore (n + 1) n [] (Nat.lt_succ_self n)
  simpa [Nat.repr, Nat.toDigits, List.asString, decodeDigits] using h

theorem repr_injective {a b : Nat} (h : Nat.repr a = Nat.repr b) : a = b := by
  have hd : (Nat.repr a).data = (Nat.repr b).data := by rw [h]
  have := congrArg decodeDigits hd
  rwa [decode_repr, decode_repr] at this

theorem uidSnapshotPart_mkUid (sid idx : Nat) :
    uidSnapshotPart (mkUid sid idx) = Nat.repr sid := by
  unfold uidSnapshotPart mkUid
  have hdata :
      (Nat.repr sid ++ "_" ++ Nat.repr idx).data =
        (Nat.repr sid).data ++ '_' :: (Nat.repr idx).data := by
    simp [String.data_append]
  rw [hdata, List.takeWhile_append_of_pos (by
    intro a ha
    have := repr_ne_underscore sid a ha
    simpa using this)]
  have hstop : List.takeWhile (fun c => c != '_') ('_' :: (Nat.repr idx).data) = [] := by
    simp [List.takeWhile_cons]
  rw [hstop, List.append_nil]

/-! ### Lemmas about the snapshot encoder -/

mutual

theorem assignIds_keys (snapshotId : Nat) :
    ∀ (node : SerializedAXNode) (idCounter : Nat)
      (acc : List (String × TextSnapshotNode)),
      ∃ ks, ((assignIds snapshotId node idCounter acc).2.2).map Prod.fst =
          acc.map Prod.fst ++ ks ∧
        ks ≠ [] ∧ ∀ k ∈ ks, ∃ i, k = mkUid snapshotId i
  | .mk role name value eh children, idCounter, acc => by
    obtain ⟨ks, hks, hforms⟩ :=
      assignIdsList_keys snapshotId children (idCounter + 1) acc
    rcases hrec : assignIdsList snapshotId children (idCounter + 1) acc with
      ⟨kids, idCounter', acc'⟩
    rw [hrec] at hks
    refine ⟨ks ++ [mkUid snapshotId idCounter], ?_, by simp, ?_⟩
    · simp only [assignIds, hrec]
      simp [hks]
    · intro k hk
      rcases List.mem_append.mp hk with h | h
      · exact hforms k h
      · rcases List.mem_singleton.mp h with rfl
        exact ⟨idCounter, rfl⟩

theorem assignIdsList_keys (snapshotId : Nat) :
    ∀ (nodes : List SerializedAXNode) (idCounter : Nat)
      (acc : List (String × TextSnapshotNode)),
      ∃ ks, ((assignIdsList snapshotId nodes idCounter acc).2.2).map Prod.fst =
          acc.map Prod.fst ++ ks ∧
        ∀ k ∈ ks, ∃ i, k = mkUid snapshotId i
  | [], idCounter, acc => ⟨[], by simp [assignIdsList], by simp⟩
  | node :: rest, idCounter, acc => by
    obtain ⟨ks₁, hks₁, _, hf₁⟩ := assignIds_keys snapshotId node idCounter acc
    rcases hrec₁ : assignIds snapshotId node idCounter acc with ⟨node', idCounter', acc'⟩
    rw [hrec₁] at hks₁
    obtain ⟨ks₂, hks₂, hf₂⟩ := assignIdsList_keys snapshotId rest idCounter' acc'
    rcases hrec₂ : assignIdsList snapshotId rest idCounter' acc' with
      ⟨rest', idCounter'', acc''⟩
    rw [hrec₂] at hks₂
    refine ⟨ks₁ ++ ks₂, ?_, ?_⟩
    · simp only [assignIdsList, hrec₁, hrec₂]
      simp [hks₂, hks₁]
    · intro k hk
      rcases List.mem_append.mp hk with h | h
      · exact hf₁ k h
      · exact hf₂ k h

end

theorem assignIds_root_value (snapshotId : Nat) (role : String)
    (name value : Option String) (eh : Option Nat)
    (children : List SerializedAXNode) (idCounter : Nat)
    (acc : List (String × TextSnapshotNode)) :
    (assignIds snapshotId (.mk role name value eh children) idCounter acc).1.value =
      if role = "option" ∧ strTruthy name then name else value := by
  rcases hrec : assignIdsList snapshotId children (idCounter + 1) acc with
    ⟨kids, idCounter', acc'⟩
  simp only [assignIds, hrec]
  rfl

theorem assignIds_idToNode_forms (snapshotId : Nat) (node : SerializedAXNode) :
    (assignIds snapshotId node 0 []).2.2 ≠ [] ∧
      ∀ k ∈ ((assignIds snapshotId node 0 []).2.2).map Prod.fst,
        ∃ i, k = mkUid snapshotId i := by
  obtain ⟨ks, hks, hne, hforms⟩ := assignIds_keys snapshotId node 0 []
  constructor
  · intro hnil
    rw [hnil] at hks
    simp at hks
    exact hne hks
  · intro k hk
    rw [hks] at hk
    simp only [List.map_nil, List.nil_append] at hk
    exact hforms k hk

theorem createTextSnapshot_ok (st : McpState) (root : SerializedAXNode)
    (page : Page) (hsel : st.getSelectedPage = .ok page) :
    ∃ snap st',
      st.createTextSnapshot (some root) = (.ok (), st') ∧
      st'.textSnapshot = some snap ∧
      st'.nextSnapshotId = st.nextSnapshotId + 1 ∧
      snap.snapshotId = Nat.repr st.nextSnapshotId ∧
      snap.idToNode ≠ [] ∧
      ∀ k ∈ snap.idToNode.map Prod.fst, ∃ i, k = mkUid st.nextSnapshotId i := by
  obtain ⟨hne, hforms⟩ := assignIds_idToNode_forms st.nextSnapshotId root
  rcases hrec : assignIds st.nextSnapshotId root 0 [] with ⟨rootWithId, c, idToNode⟩
  rw [hrec] at hne hforms
  refine ⟨{ root := rootWithId, idToNode := idToNode,
            snapshotId := Nat.repr st.nextSnapshotId },
    (st.createTextSnapshot (some root)).2, ?_, ?_, ?_, rfl, hne, hforms⟩ <;>
    simp only [McpState.createTextSnapshot, hsel, hrec]

theorem getElementByUid_stale (st : McpState) (snap : TextSnapshot)
    (hsnap : st.textSnapshot = some snap) (hne : snap.idToNode ≠ [])
    (uid : String) (hmismatch : snap.snapshotId ≠ uidSnapshotPart uid) :
    st.getElementByUid uid = .error McpState.STALE_SNAPSHOT_ERROR := by
  simp only [McpState.getElementByUid, hsnap]
  rw [if_neg (by simpa [List.length_eq_zero] using hne), if_pos hmismatch]

/-! ### Lemmas about session state operations -/

theorem getSelectedPage_eq_some (st : McpState) (page : Page)
    (h : st.getSelectedPage = .ok page) :
    st.pages[st.selectedPageIdx]? = some page ∧ page.isClosed = false := by
  unfold McpState.getSelectedPage at h
  cases hp : st.pages[st.selectedPageIdx]? with
  | none => simp [hp] at h
  | some q =>
    simp only [hp] at h
    by_cases hc : q.isClosed
    · simp [hc] at h
    · simp [hc] at h
      subst h
      exact ⟨rfl, by simpa using hc⟩

theorem getSelectedPage_updatePage (st : McpState) (page : Page)
    (h : st.getSelectedPage = .ok page) (f : Page → Page)
    (hclosed : (f page).isClosed = page.isClosed) :
    (st.updatePage page.pid f).getSelectedPage = .ok (f page) := by
  obtain ⟨hp, hc⟩ := getSelectedPage_eq_some st page h
  unfold McpState.getSelectedPage McpState.updatePage
  simp [List.getElem?_map, hp, hclosed, hc]

theorem updatePage_map_eq {α : Type} (st : McpState) (pid : Nat) (f : Page → Page)
    (g : Page → α) (hf : ∀ p, g (f p) = g p) :
    (st.updatePage pid f).pages.map g = st.pages.map g := by
  simp only [McpState.updatePage, List.map_map]
  apply List.map_congr_left
  intro p _
  dsimp only [Function.comp]
  split
  · exact hf p
  · rfl

theorem updateSelectedPageTimeouts_spec (st : McpState) (page : Page)
    (hsel : st.getSelectedPage = .ok page) :
    (st.updateSelectedPageTimeouts).1 = .ok () ∧
    ∃ p', (st.updateSelectedPageTimeouts).2.getSelectedPage = .ok p' ∧
      p'.pid = page.pid ∧
      p'.dialogListeners = page.dialogListeners ∧
      p'.defaultTimeout =
        DEFAULT_TIMEOUT * (st.updateSelectedPageTimeouts).2.cpuRateOf p'.pid ∧
      p'.defaultNavigationTimeout =
        NAVIGATION_TIMEOUT * getNetworkMultiplierFromString
          ((st.updateSelectedPageTimeouts).2.networkConditionsOf p'.pid) ∧
      (st.updateSelectedPageTimeouts).2.selectedPageIdx = st.selectedPageIdx ∧
      (st.updateSelectedPageTimeouts).2.pages.map Page.pid = st.pages.map Page.pid ∧
      (st.updateSelectedPageTimeouts).2.pages.map Page.dialogListeners =
        st.pages.map Page.dialogListeners ∧
      (st.updateSelectedPageTimeouts).2.cpuThrottlingRateMap = st.cpuThrottlingRateMap ∧
      (st.updateSelectedPageTimeouts).2.networkConditionsMap = st.networkConditionsMap ∧
      (st.updateSelectedPageTimeouts).2.dialog = st.dialog ∧
      (st.updateSelectedPageTimeouts).2.textSnapshot = st.textSnapshot := by
  have h1 := getSelectedPage_updatePage st page hsel
    (fun p => { p with defaultTimeout := DEFAULT_TIMEOUT * st.cpuRateOf page.pid }) rfl
  have h2 := getSelectedPage_updatePage
    (st.updatePage page.pid
      (fun p => { p with defaultTimeout := DEFAULT_TIMEOUT * st.cpuRateOf page.pid }))
    ({ page with defaultTimeout := DEFAULT_TIMEOUT * st.cpuRateOf page.pid })
    h1
    (fun p => { p with defaultNavigationTimeout :=
      NAVIGATION_TIMEOUT * getNetworkMultiplierFromString (st.networkConditionsOf page.pid) })
    rfl
  have hred : st.updateSelectedPageTimeouts =
      (.ok (),
        (st.updatePage page.pid
          (fun p => { p with defaultTimeout := DEFAULT_TIMEOUT * st.cpuRateOf page.pid })).updatePage
          page.pid
          (fun p => { p with defaultNavigationTimeout :=
            NAVIGATION_TIMEOUT *
              getNetworkMultiplierFromString (st.networkConditionsOf page.pid) })) := by
    simp only [McpState.updateSelectedPageTimeouts, hsel]
    rfl
  rw [hred]
  refine ⟨rfl,
    { { page with defaultTimeout := DEFAULT_TIMEOUT * st.cpuRateOf page.pid } with
        defaultNavigationTimeout :=
          NAVIGATION_TIMEOUT *
            getNetworkMultiplierFromString (st.networkConditionsOf page.pid) },
    ?_, rfl, rfl, rfl, rfl, rfl, ?_, ?_, rfl, rfl, rfl, rfl⟩
  · exact h2
  · dsimp only
    exact (updatePage_map_eq _ page.pid
        (fun p => { p with defaultNavigationTimeout :=
          NAVIGATION_TIMEOUT *
            getNetworkMultiplierFromString (st.networkConditionsOf page.pid) })
        Page.pid (fun p => rfl)).trans
      (updatePage_map_eq _ page.pid
        (fun p => { p with defaultTimeout := DEFAULT_TIMEOUT * st.cpuRateOf page.pid })
        Page.pid (fun p => rfl))
  · dsimp only
    exact (updatePage_map_eq _ page.pid
        (fun p => { p with defaultNavigationTimeout :=
          NAVIGATION_TIMEOUT *
            getNetworkMultiplierFromString (st.networkConditionsOf page.pid) })
        Page.dialogListeners (fun p => rfl)).trans
      (updatePage_map_eq _ page.pid
        (fun p => { p with defaultTimeout := DEFAULT_TIMEOUT * st.cpuRateOf page.pid })
        Page.dialogListeners (fun p => rfl))

theorem dialogListenerInv_elem {st : McpState} (hinv : dialogListenerInv st)
    {i : Nat} {p : Page} (hp : st.pages[i]? = some p) :
    p.dialogListeners = if i = st.selectedPageIdx then 1 else 0 := by
  have hlen : i < st.pages.length := (List.getElem?_eq_some_iff.mp hp).1
  have h0 := congrArg (fun l => l[i]?) hinv
  simp only [List.getElem?_map, hp, List.getElem?_range hlen, Option.map_some'] at h0
  injection h0

theorem dialogListenerInv_make (st : McpState)
    (h : ∀ (i : Nat) (p : Page), st.pages[i]? = some p →
      p.dialogListeners = if i = st.selectedPageIdx then 1 else 0) :
    dialogListenerInv st := by
  unfold dialogListenerInv
  apply List.ext_getElem?
  intro i
  simp only [List.getElem?_map]
  cases hp : st.pages[i]? with
  | none =>
    have hge : st.pages.length ≤ i := List.getElem?_eq_none_iff.mp hp
    rw [List.getElem?_eq_none (by simpa using hge)]
    rfl
  | some p =>
    have hlen : i < st.pages.length := (List.getElem?_eq_some_iff.mp hp).1
    rw [List.getElem?_range hlen, Option.map_some', Option.map_some', h i p hp]

theorem pages_pid_inj (st : McpState) (hnodup : pidsNodup st)
    {i j : Nat} {p q : Page} (hp : st.pages[i]? = some p) (hq : st.pages[j]? = some q)
    (h : p.pid = q.pid) : i = j := by
  have h1 : (st.pages.map Page.pid)[i]? = some p.pid := by
    simp [hp]
  have h2 : (st.pages.map Page.pid)[j]? = some q.pid := by
    simp [hq]
  rcases Nat.lt_trichotomy i j with hlt | heq | hlt
  · have hne := (List.nodup_iff_getElem?_ne_getElem?.mp hnodup) i j hlt
      (by simpa using (List.getElem?_eq_some_iff.mp hq).1)
    exact absurd (h1.trans (by rw [h, ← h2])) hne
  · exact heq
  · have hne := (List.nodup_iff_getElem?_ne_getElem?.mp hnodup) j i hlt
      (by simpa using (List.getElem?_eq_some_iff.mp hp).1)
    exact absurd (h2.trans (by rw [← h, ← h1])) hne

theorem updatePage_getElem? (st : McpState) (pid : Nat) (f : Page → Page) (i : Nat) :
    (st.updatePage pid f).pages[i]? =
      (st.pages[i]?).map (fun p => if p.pid = pid then f p else p) := by
  simp [McpState.updatePage]

theorem createTextSnapshot_res (st : McpState) (root : SerializedAXNode) (st' : McpState)
    (h : st.createTextSnapshot (some root) = (.ok (), st')) :
    ∃ snap, st'.textSnapshot = some snap ∧
      st'.nextSnapshotId = st.nextSnapshotId + 1 ∧
      snap.snapshotId = Nat.repr st.nextSnapshotId ∧
      snap.idToNode ≠ [] ∧
      ∀ k ∈ snap.idToNode.map Prod.fst, ∃ i, k = mkUid st.nextSnapshotId i := by
  cases hsel : st.getSelectedPage with
  | error e =>
    unfold McpState.createTextSnapshot at h
    simp [hsel] at h
  | ok page =>
    obtain ⟨snap, st'', heq, ht, hn, hsid, hne, hforms⟩ :=
      createTextSnapshot_ok st root page hsel
    have hpair := heq.symm.trans h
    injection hpair with _ hstate
    subst hstate
    exact ⟨snap, ht, hn, hsid, hne, hforms⟩

/-! ### Claim theorems -/

/-- C1: `getElementByUid` fails when no snapshot exists yet; it fails with
the staleness condition when the UID's snapshot-ID prefix differs from the
current snapshot's ID — in particular every UID issued by a snapshot fails
after any newer snapshot has been created, even when the referenced node
still exists in the new tree; it fails when the UID is absent from the
current map; and it fails when the element handle cannot be resolved. -/
theorem c1_getElementByUid_failures :
    (∀ (st : McpState) (uid : String), st.textSnapshot = none →
      st.getElementByUid uid = .error McpState.NO_SNAPSHOT_ERROR) ∧
    (∀ (st₁ : McpState) (root₁ root₂ : SerializedAXNode) (st₂ st₃ : McpState),
      st₁.createTextSnapshot (some root₁) = (.ok (), st₂) →
      st₂.createTextSnapshot (some root₂) = (.ok (), st₃) →
      ∀ uid : String,
        (∃ snap₁, st₂.textSnapshot = some snap₁ ∧
          uid ∈ snap₁.idToNode.map Prod.fst) →
        st₃.getElementByUid uid = .error McpState.STALE_SNAPSHOT_ERROR) ∧
    (∀ (st : McpState) (snap : TextSnapshot) (uid : String),
      st.textSnapshot = some snap → snap.idToNode ≠ [] →
      snap.snapshotId ≠ uidSnapshotPart uid →
      st.getElementByUid uid = .error McpState.STALE_SNAPSHOT_ERROR) ∧
    (∀ (st : McpState) (snap : TextSnapshot) (uid : String),
      st.textSnapshot = some snap → snap.idToNode ≠ [] →
      snap.snapshotId = uidSnapshotPart uid →
      snap.idToNode.lookup uid = none →
      st.getElementByUid uid = .error McpState.NO_ELEMENT_ERROR) ∧
    (∀ (st : McpState) (snap : TextSnapshot) (uid : String) (node : TextSnapshotNode),
      st.textSnapshot = some snap → snap.idToNode ≠ [] →
      snap.snapshotId = uidSnapshotPart uid →
      snap.idToNode.lookup uid = some node →
      node.elementHandle = none →
      st.getElementByUid uid = .error McpState.NO_ELEMENT_ERROR) := by
  refine ⟨?_, ?_, ?_, ?_, ?_⟩
  · intro st uid h
    simp [McpState.getElementByUid, h]
  · intro st₁ root₁ root₂ st₂ st₃ h₂ h₃ uid hiss
    obtain ⟨snap₁, hts₁, hnid₁, hsid₁, hne₁, hforms₁⟩ := createTextSnapshot_res _ _ _ h₂
    obtain ⟨snap₂, hts₂, hnid₂, hsid₂, hne₂, hforms₂⟩ := createTextSnapshot_res _ _ _ h₃
    obtain ⟨snap₁x, htsx, hmem⟩ := hiss
    rw [hts₁] at htsx
    injection htsx with htsx
    subst htsx
    obtain ⟨i, rfl⟩ := hforms₁ uid hmem
    apply getElementByUid_stale st₃ snap₂ hts₂ hne₂
    rw [hsid₂, hnid₁, uidSnapshotPart_mkUid]
    intro he
    exact absurd (repr_injective he) (by omega)
  · intro st snap uid hsnap hne hmismatch
    exact getElementByUid_stale st snap hsnap hne uid hmismatch
  · intro st snap uid hsnap hne hmatch hlookup
    simp only [McpState.getElementByUid, hsnap]
    rw [if_neg (by simpa [List.length_eq_zero] using hne),
      if_neg (by simp [hmatch]), hlookup]
  · intro st snap uid node hsnap hne hmatch hlookup hhandle
    simp only [McpState.getElementByUid, hsnap]
    rw [if_neg (by simpa [List.length_eq_zero] using hne),
      if_neg (by simp [hmatch]), hlookup]
    simp [hhandle]

/-- C1 witness: the root UID `1_0` issued by the first snapshot fails with
the staleness condition after a second snapshot of the same tree is taken. -/
theorem c1_getElementByUid_failures_witness :
    ((({ pages := [{ pid := 0, url := "a" }] } :
        McpState).createTextSnapshot
          (some (.mk "main" none none (some 5) []))).2.createTextSnapshot
            (some (.mk "main" none none (some 5) []))).2.getElementByUid "1_0" =
      .error McpState.STALE_SNAPSHOT_ERROR :=
  c1_getElementByUid_failures.2.1
    { pages := [{ pid := 0, url := "a" }] }
    (.mk "main" none none (some 5) []) (.mk "main" none none (some 5) []) _ _
    rfl rfl "1_0" ⟨_, rfl, by decide⟩

/-- C2: with `pageSize` omitted, pagination returns all `n` items on a single
page with `totalPages = 1`; with `pageSize` provided and `pageIdx` outside
`[0, totalPages)`, pagination never errors but falls back to page 0, sets the
`invalidPage` flag, and `#dataWithPagination` renders the invalid-page line
first; concretely, `pageSize = 2`, `pageIdx = 5` against a 3-item list gives
`invalidPage = true`, the first 2 of the 3 items, and `totalPages = 2`. -/
theorem c2_pagination_contract :
    (∀ (data : List Nat) (pagination : Option PaginationOptions),
      pagination.bind (fun p => p.pageSize) = none →
      (paginate data pagination).items = data ∧
        (paginate data pagination).totalPages = 1) ∧
    (∀ (data : List Nat) (opts : PaginationOptions) (pageSize : Nat) (pageIdx : Int),
      opts.pageSize = some pageSize → opts.pageIdx = some pageIdx →
      (pageIdx < 0 ∨ ((paginate data (some opts)).totalPages : Int) ≤ pageIdx) →
      (paginate data (some opts)).invalidPage = true ∧
        (paginate data (some opts)).currentPage = 0 ∧
        (paginate data (some opts)).items = data.take pageSize ∧
        (dataWithPagination data (some opts)).info.head? =
          some "Invalid page number provided. Showing first page.") ∧
    ((paginate [10, 20, 30] (some { pageSize := some 2, pageIdx := some 5 })).invalidPage
        = true ∧
      (dataWithPagination [10, 20, 30]
          (some { pageSize := some 2, pageIdx := some 5 })).items = [10, 20] ∧
      (paginate [10, 20, 30] (some { pageSize := some 2, pageIdx := some 5 })).totalPages
        = 2) := by
  refine ⟨?_, ?_, by decide, by decide, by decide⟩
  · intro data pagination h
    simp [paginate, h]
  · intro data opts pageSize pageIdx hps hidx hout
    have hbind : (some opts).bind (fun p => p.pageSize) = some pageSize := by
      simp [hps]
    have hbind2 : (some opts).bind (fun p => p.pageIdx) = some pageIdx := by
      simp [hidx]
    simp only [paginate, hbind] at hout
    simp only [paginate, dataWithPagination, hbind, hbind2, Option.getD_some] at hout ⊢
    generalize hT : max 1 ((data.length + pageSize - 1) / pageSize) = T at hout ⊢
    have hinv : (decide (pageIdx < 0) || decide ((T : Int) ≤ pageIdx)) = true := by
      rcases hout with h | h <;> simp [h]
    rw [hinv]
    simp

/-- C2 witness: the out-of-range branch instantiated at
`pageSize = 2, pageIdx = 5` against `[1, 2, 3]`. -/
theorem c2_pagination_contract_witness :
    (paginate [1, 2, 3] (some { pageSize := some 2, pageIdx := some 5 })).invalidPage
        = true ∧
      (paginate [1, 2, 3] (some { pageSize := some 2, pageIdx := some 5 })).currentPage
        = 0 := by
  have h := c2_pagination_contract.2.1 [1, 2, 3]
    { pageSize := some 2, pageIdx := some 5 } 2 5 rfl rfl (by decide)
  exact ⟨h.1, h.2.1⟩

/-- C3: when exactly one page is open, `closePage` fails with the dedicated
last-page condition for every page index and leaves the state unchanged; the
`close_page` tool handler appends the condition as response text instead of
aborting. -/
theorem c3_close_last_page (st : McpState) (resp : McpResponseState) (pageIdx : Nat)
    (h : st.pages.length = 1) :
    st.closePage pageIdx = (.error McpState.CLOSE_PAGE_ERROR, st) ∧
      closePageHandler st resp pageIdx =
        .ok (st, (resp.appendResponseLine McpState.CLOSE_PAGE_ERROR).setIncludePages true) := by
  constructor
  · simp [McpState.closePage, h]
  · simp [closePageHandler, McpState.closePage, h]

/-- C3 witness: a concrete single-page session. -/
theorem c3_close_last_page_witness :
    ({ pages := [{ pid := 7, url := "https://example.com" }] } : McpState).closePage 0 =
      (.error McpState.CLOSE_PAGE_ERROR,
        { pages := [{ pid := 7, url := "https://example.com" }] }) :=
  (c3_close_last_page { pages := [{ pid := 7, url := "https://example.com" }] } {} 0 rfl).1

/-- C8: persisting an image with a MIME type other than `image/png`,
`image/jpeg` or `image/webp` is a hard error that aborts `saveTemporaryFile`
and propagates to the caller; exactly those three types map to the
extensions `png`, `jpeg` and `webp`. -/
theorem c8_mime_type_extensions :
    (∀ mimeType : String,
      mimeType ∉ (["image/png", "image/jpeg", "image/webp"] : List String) →
      (∃ e, getExtensionFromMimeType mimeType = .error e) ∧
        ∀ fsFails, saveTemporaryFile mimeType fsFails =
          .error "Could not save a screenshot to a file") ∧
    getExtensionFromMimeType "image/png" = .ok "png" ∧
    getExtensionFromMimeType "image/jpeg" = .ok "jpeg" ∧
    getExtensionFromMimeType "image/webp" = .ok "webp" := by
  refine ⟨?_, rfl, rfl, rfl⟩
  intro mimeType hm
  have h1 : mimeType ≠ "image/png" := by rintro rfl; simp at hm
  have h2 : mimeType ≠ "image/jpeg" := by rintro rfl; simp at hm
  have h3 : mimeType ≠ "image/webp" := by rintro rfl; simp at hm
  have herr : getExtensionFromMimeType mimeType =
      .error ("No mapping for Mime type " ++ mimeType ++ ".") := by
    unfold getExtensionFromMimeType
    split
    · exact absurd rfl h1
    · exact absurd rfl h2
    · exact absurd rfl h3
    · rfl
  refine ⟨⟨_, herr⟩, ?_⟩
  intro fsFails
  simp [saveTemporaryFile, herr, Bind.bind, Except.bind]

/-- C8 witness: `image/gif` is rejected and aborts the save. -/
theorem c8_mime_type_extensions_witness :
    (∃ e, getExtensionFromMimeType "image/gif" = .error e) ∧
      ∀ fsFails, saveTemporaryFile "image/gif" fsFails =
        .error "Could not save a screenshot to a file" :=
  c8_mime_type_extensions.1 "image/gif" (by decide)

/-- C4 counterexample: the claim says a node whose accessible value is
non-empty is left unchanged, but for an option node with a truthy name the
code overwrites a non-empty value with the name. -/
theorem c4_option_value_counterexample :
    (assignIds 1 (.mk "option" (some "Option A") (some "existing") none []) 0 []).1.value
      ≠ some "existing" := by
  decide

/-- C4 amended: during the ID-assignment traversal, a node whose role is
`option` and whose accessible name is truthy (present and non-empty) has its
value replaced by that name regardless of the previous value; every node
whose role is not `option`, or whose name is not truthy, keeps its value
unchanged. -/
theorem c4_option_value_backfill (snapshotId : Nat) (role : String)
    (name value : Option String) (eh : Option Nat)
    (children : List SerializedAXNode) (idCounter : Nat)
    (acc : List (String × TextSnapshotNode)) :
    (role = "option" → strTruthy name = true →
      (assignIds snapshotId (.mk role name value eh children) idCounter acc).1.value
        = name) ∧
    (role ≠ "option" →
      (assignIds snapshotId (.mk role name value eh children) idCounter acc).1.value
        = value) ∧
    (strTruthy name = false →
      (assignIds snapshotId (.mk role name value eh children) idCounter acc).1.value
        = value) := by
  refine ⟨?_, ?_, ?_⟩
  · intro hrole hname
    rw [assignIds_root_value, if_pos ⟨hrole, hname⟩]
  · intro hrole
    rw [assignIds_root_value, if_neg (fun hc => hrole hc.1)]
  · intro hname
    rw [assignIds_root_value, if_neg (fun hc => by simp [hname] at hc)]

/-- C4 witness: an option node with a truthy name and an empty prior value is
backfilled with the name. -/
theorem c4_option_value_backfill_witness :
    (assignIds 1 (.mk "option" (some "Name") none none []) 0 []).1.value = some "Name" :=
  (c4_option_value_backfill 1 "option" (some "Name") none none [] 0 []).1 rfl rfl

/-- C9: a failure of the underlying dialog accept/dismiss primitive is
swallowed (logged, never propagated): the `handle_dialog` invocation still
succeeds, clears the dialog and appends its success line, for every value of
the failure flags; and a console argument whose `jsonValue()` extraction
throws degrades per-item to the placeholder `"undefined"` without affecting
the collection of the other arguments. -/
theorem c9_best_effort_failures :
    (∀ (st : McpState) (resp : McpResponseState) (action : DialogAction)
        (promptText : Option String) (d : Dialog), st.dialog = some d →
      ∃ logged,
        handleDialogHandler st resp action promptText =
          .ok ({ st with dialog := none },
            (resp.appendResponseLine (dialogSuccessLine action)).setIncludePages true,
            logged)) ∧
    (∀ (xs ys : List (Except String JsVal)) (e : String),
      collectConsoleArgs (xs ++ .error e :: ys) =
        collectConsoleArgs xs ++ "undefined" :: collectConsoleArgs ys) := by
  constructor
  · intro st resp action promptText d hd
    refine ⟨match attemptDialogAction d action with
      | .error err => [err]
      | .ok _ => [], ?_⟩
    cases action <;>
      simp [handleDialogHandler, hd, dialogSuccessLine]
  · intro xs ys e
    simp [collectConsoleArgs, stringifyConsoleArg]

/-- C9 witness: a dialog whose accept primitive throws is still handled
successfully, and a throwing console argument renders as the placeholder. -/
theorem c9_best_effort_failures_witness :
    (∃ logged,
      handleDialogHandler
          { pages := [],
            dialog := some { dialogType := "alert", message := "hi",
                             defaultValue := "", acceptFails := true } }
          {} .accept none =
        .ok ({ pages := [], dialog := none },
          (McpResponseState.appendResponseLine {} (dialogSuccessLine .accept)).setIncludePages
            true,
          logged)) ∧
    collectConsoleArgs [.ok (.prim "1"), .error "Execution context destroyed"] =
      ["1", "undefined"] := by
  constructor
  · exact c9_best_effort_failures.1
      { pages := [],
        dialog := some { dialogType := "alert", message := "hi",
                         defaultValue := "", acceptFails := true } }
      {} .accept none _ rfl
  · exact c9_best_effort_failures.2 [.ok (.prim "1")] [] "Execution context destroyed"

/-- C10: resource attachments with stable ID 0 are treated as absent: the
gather phase never looks up request/message 0 and fetches no bodies, the
render phase emits no attached-resource detail section, and the
`get_network_request` tool with `reqid = 0` takes the DevTools-UI fallback
instead of attaching request 0. -/
theorem c10_attach_zero_skipped :
    (∀ (resp : McpResponseState) (getById : Nat → Except String HTTPRequest)
        (fmts : Formatters), resp.attachedNetworkRequestId = some 0 →
      gatherAttachedRequestBodies resp getById fmts = .ok (none, none)) ∧
    (∀ (resp : McpResponseState) (getById : Nat → Except String HTTPRequest)
        (stableId : HTTPRequest → Nat) (fmts : Formatters)
        (bodies : Option String × Option String),
      resp.attachedNetworkRequestId = some 0 →
      formatNetworkRequestData resp getById stableId fmts bodies = .ok []) ∧
    (∀ (resp : McpResponseState) (getById : Nat → Except String ConsoleItem),
      resp.attachedConsoleMessageId = some 0 →
      gatherAttachedConsoleData resp getById = .ok none) ∧
    (∀ fmts : Formatters, formatConsoleData none fmts = []) ∧
    (∀ (devToolsData : Option DevToolsData) (resp : McpResponseState),
      getNetworkRequestHandler (some 0) devToolsData resp =
        getNetworkRequestDevToolsFallback devToolsData resp) := by
  refine ⟨?_, ?_, ?_, fun _ => rfl, ?_⟩
  · intro resp getById fmts h
    simp [gatherAttachedRequestBodies, h]
    rfl
  · intro resp getById stableId fmts bodies h
    simp [formatNetworkRequestData, h]
  · intro resp getById h
    simp [gatherAttachedConsoleData, h]
    rfl
  · intro devToolsData resp
    simp [getNetworkRequestHandler]

/-- C10 witness: with request 0 attached, the gather phase returns no bodies
even though looking any id up would fail. -/
theorem c10_attach_zero_skipped_witness :
    gatherAttachedRequestBodies
        (McpResponseState.attachNetworkRequest {} 0)
        (fun _ => .error "not found")
        { shortDescriptionForRequest := fun _ _ _ => "",
          shortDescriptionPlain := fun _ _ => "",
          formatConsoleEventShort := fun _ => "",
          formatConsoleEventVerbose := fun _ => "",
          statusFromRequest := fun _ => "",
          formattedHeaderValue := fun _ => [],
          formattedRequestBody := fun _ => none,
          formattedResponseBody := fun _ => none } = .ok (none, none) :=
  c10_attach_zero_skipped.1 (McpResponseState.attachNetworkRequest {} 0)
    (fun _ => .error "not found") _ rfl

/-- C6: every operation that selects a page or changes its throttling
settings re-derives the selected page's timeouts: the default action timeout
is the base action timeout (5000 ms) multiplied by the page's CPU-throttling
rate, and the default navigation timeout is the base navigation timeout
(10000 ms) multiplied by the network-condition multiplier, whose mapping is
none/unrecognized → 1, Fast 4G → 1, Slow 4G → 2.5, Fast 3G → 5,
Slow 3G → 10. -/
theorem c6_timeouts_rederived :
    (∀ (st : McpState) (idx : Nat) (st' : McpState),
      st.setSelectedPageIdx idx = (.ok (), st') →
      ∃ p', st'.getSelectedPage = .ok p' ∧
        p'.defaultTimeout = DEFAULT_TIMEOUT * st'.cpuRateOf p'.pid ∧
        p'.defaultNavigationTimeout = NAVIGATION_TIMEOUT *
          getNetworkMultiplierFromString (st'.networkConditionsOf p'.pid)) ∧
    (∀ (st : McpState) (conditions : Option String) (st' : McpState),
      st.setNetworkConditions conditions = (.ok (), st') →
      ∃ p', st'.getSelectedPage = .ok p' ∧
        p'.defaultTimeout = DEFAULT_TIMEOUT * st'.cpuRateOf p'.pid ∧
        p'.defaultNavigationTimeout = NAVIGATION_TIMEOUT *
          getNetworkMultiplierFromString (st'.networkConditionsOf p'.pid)) ∧
    (∀ (st : McpState) (rate : ℚ) (st' : McpState),
      st.setCpuThrottlingRate rate = (.ok (), st') →
      ∃ p', st'.getSelectedPage = .ok p' ∧
        p'.defaultTimeout = DEFAULT_TIMEOUT * st'.cpuRateOf p'.pid ∧
        p'.defaultNavigationTimeout = NAVIGATION_TIMEOUT *
          getNetworkMultiplierFromString (st'.networkConditionsOf p'.pid)) ∧
    getNetworkMultiplierFromString none = 1 ∧
    (∀ s : String, s ∉ (["Fast 4G", "Slow 4G", "Fast 3G", "Slow 3G"] : List String) →
      getNetworkMultiplierFromString (some s) = 1) ∧
    getNetworkMultiplierFromString (some "Fast 4G") = 1 ∧
    getNetworkMultiplierFromString (some "Slow 4G") = 5 / 2 ∧
    getNetworkMultiplierFromString (some "Fast 3G") = 5 ∧
    getNetworkMultiplierFromString (some "Slow 3G") = 10 := by
  refine ⟨?_, ?_, ?_, rfl, ?_, rfl, rfl, rfl, rfl⟩
  · intro st idx st' h
    unfold McpState.setSelectedPageIdx at h
    split at h
    · simp at h
    · rename_i oldPage h1
      dsimp only at h
      split at h
      · simp at h
      · rename_i newPage h2
        have h3 : ((({ st.pageOffDialog oldPage.pid with selectedPageIdx := idx } :
              McpState)).pageOnDialog newPage.pid).getSelectedPage =
            .ok ({ newPage with dialogListeners := newPage.dialogListeners + 1 }) :=
          getSelectedPage_updatePage _ newPage h2 _ rfl
        obtain ⟨hres, p', hp', hpid, hdl, ht1, ht2, hrest⟩ :=
          updateSelectedPageTimeouts_spec _ _ h3
        have e2 : ((({ st.pageOffDialog oldPage.pid with selectedPageIdx := idx } :
              McpState)).pageOnDialog newPage.pid).updateSelectedPageTimeouts.2 = st' := by
          rw [h]
        rw [e2] at hp' ht1 ht2
        exact ⟨p', hp', ht1, ht2⟩
  · intro st conditions st' h
    unfold McpState.setNetworkConditions at h
    split at h
    · simp at h
    · rename_i page h1
      dsimp only at h
      split at h
      · obtain ⟨hres, p', hp', hpid, hdl, ht1, ht2, hrest⟩ :=
          updateSelectedPageTimeouts_spec
            ({ st with networkConditionsMap :=
                st.networkConditionsMap.filter (fun kv => kv.1 != page.pid) })
            page h1
        have e2 : ({ st with networkConditionsMap :=
            st.networkConditionsMap.filter (fun kv => kv.1 != page.pid) } :
              McpState).updateSelectedPageTimeouts.2 = st' := by
          rw [h]
        rw [e2] at hp' ht1 ht2
        exact ⟨p', hp', ht1, ht2⟩
      · rename_i c
        obtain ⟨hres, p', hp', hpid, hdl, ht1, ht2, hrest⟩ :=
          updateSelectedPageTimeouts_spec
            ({ st with networkConditionsMap :=
                (page.pid, c) :: st.networkConditionsMap.filter (fun kv => kv.1 != page.pid) })
            page h1
        have e2 : ({ st with networkConditionsMap :=
            (page.pid, c) :: st.networkConditionsMap.filter (fun kv => kv.1 != page.pid) } :
              McpState).updateSelectedPageTimeouts.2 = st' := by
          rw [h]
        rw [e2] at hp' ht1 ht2
        exact ⟨p', hp', ht1, ht2⟩
  · intro st rate st' h
    unfold McpState.setCpuThrottlingRate at h
    split at h
    · simp at h
    · rename_i page h1
      dsimp only at h
      obtain ⟨hres, p', hp', hpid, hdl, ht1, ht2, hrest⟩ :=
        updateSelectedPageTimeouts_spec
          ({ st with cpuThrottlingRateMap :=
              (page.pid, rate) :: st.cpuThrottlingRateMap.filter (fun kv => kv.1 != page.pid) })
          page h1
      have e2 : ({ st with cpuThrottlingRateMap :=
          (page.pid, rate) :: st.cpuThrottlingRateMap.filter (fun kv => kv.1 != page.pid) } :
            McpState).updateSelectedPageTimeouts.2 = st' := by
        rw [h]
      rw [e2] at hp' ht1 ht2
      exact ⟨p', hp', ht1, ht2⟩
  · intro s hs
    have hs1 : s ≠ "Fast 4G" := by rintro rfl; simp at hs
    have hs2 : s ≠ "Slow 4G" := by rintro rfl; simp at hs
    have hs3 : s ≠ "Fast 3G" := by rintro rfl; simp at hs
    have hs4 : s ≠ "Slow 3G" := by rintro rfl; simp at hs
    unfold getNetworkMultiplierFromString
    split
    · rename_i heq; injection heq with heq; exact absurd heq hs1
    · rename_i heq; injection heq with heq; exact absurd heq hs2
    · rename_i heq; injection heq with heq; exact absurd heq hs3
    · rename_i heq; injection heq with heq; exact absurd heq hs4
    · rfl

/-- C6 witness: setting a CPU-throttling rate of 4 on a fresh single-page
session re-derives the selected page's timeouts. -/
theorem c6_timeouts_rederived_witness :
    ∃ p', (({ pages := [{ pid := 0, url := "about:blank" }] } :
        McpState).setCpuThrottlingRate 4).2.getSelectedPage = .ok p' ∧
      p'.defaultTimeout = DEFAULT_TIMEOUT *
        (({ pages := [{ pid := 0, url := "about:blank" }] } :
          McpState).setCpuThrottlingRate 4).2.cpuRateOf p'.pid ∧
      p'.defaultNavigationTimeout = NAVIGATION_TIMEOUT *
        getNetworkMultiplierFromString
          ((({ pages := [{ pid := 0, url := "about:blank" }] } :
            McpState).setCpuThrottlingRate 4).2.networkConditionsOf p'.pid) :=
  c6_timeouts_rederived.2.2.1 { pages := [{ pid := 0, url := "about:blank" }] } 4 _ rfl

/-- C7: switching the selected page removes the dialog-capture subscription
from the previously selected page and attaches it to the newly selected one,
so the handler is subscribed to exactly the selected page; consequently a
dialog fired on a page other than the selected one is never captured into
session state. -/
theorem c7_dialog_listener_exclusivity :
    (∀ (st : McpState) (idx : Nat) (st' : McpState),
      pidsNodup st → dialogListenerInv st →
      st.setSelectedPageIdx idx = (.ok (), st') →
      st'.selectedPageIdx = idx ∧ dialogListenerInv st') ∧
    (∀ (st : McpState) (pid : Nat) (d : Dialog),
      dialogListenerInv st →
      (∀ p : Page, st.pages[st.selectedPageIdx]? = some p → p.pid ≠ pid) →
      st.dialogFired pid d = st) := by
  constructor
  · intro st idx st' hnodup hinv h
    unfold McpState.setSelectedPageIdx at h
    split at h
    · simp at h
    · rename_i oldPage h1
      dsimp only at h
      split at h
      · simp at h
      · rename_i newPage h2
        obtain ⟨hpOld, hcOld⟩ := getSelectedPage_eq_some st oldPage h1
        obtain ⟨hpNewX, hcNew⟩ := getSelectedPage_eq_some _ newPage h2
        have h3 : ((({ st.pageOffDialog oldPage.pid with selectedPageIdx := idx } :
              McpState)).pageOnDialog newPage.pid).getSelectedPage =
            .ok ({ newPage with dialogListeners := newPage.dialogListeners + 1 }) :=
          getSelectedPage_updatePage _ newPage h2 _ rfl
        obtain ⟨hres, p', hp', hpid, hdl, ht1, ht2, hselIdx, hmappid, hmaplis, hcm,
          hnm, hdlg, hts⟩ := updateSelectedPageTimeouts_spec _ _ h3
        have e2 : ((({ st.pageOffDialog oldPage.pid with selectedPageIdx := idx } :
              McpState)).pageOnDialog newPage.pid).updateSelectedPageTimeouts.2 = st' := by
          rw [h]
        rw [e2] at hselIdx hmaplis
        have hsi : st'.selectedPageIdx = idx := by rw [hselIdx]; rfl
        refine ⟨hsi, ?_⟩
        have hpNew : (st.pages[idx]?).map
            (fun p => if p.pid = oldPage.pid then
              { p with dialogListeners := p.dialogListeners - 1 } else p) = some newPage := by
          have hx : ((st.pageOffDialog oldPage.pid).pages)[idx]? = some newPage := hpNewX
          simpa [McpState.pageOffDialog, McpState.updatePage, List.getElem?_map] using hx
        cases hIdxPage : st.pages[idx]? with
        | none => rw [hIdxPage] at hpNew; simp at hpNew
        | some pIdx =>
          rw [hIdxPage, Option.map_some'] at hpNew
          have hNewEq : (if pIdx.pid = oldPage.pid then
              { pIdx with dialogListeners := pIdx.dialogListeners - 1 } else pIdx) = newPage := by
            injection hpNew
          have hNewPid : newPage.pid = pIdx.pid := by
            rw [← hNewEq]; split <;> rfl
          apply dialogListenerInv_make
          intro i p hp
          rw [hsi]
          have hml := congrArg (fun l => l[i]?) hmaplis
          simp only [List.getElem?_map, hp, Option.map_some', McpState.pageOnDialog,
            McpState.pageOffDialog, McpState.updatePage, Option.map_map] at hml
          cases hi0 : st.pages[i]? with
          | none => rw [hi0] at hml; simp at hml
          | some p0 =>
            rw [hi0] at hml
            simp only [Option.map_some'] at hml
            have hinv0 := dialogListenerInv_elem hinv hi0
            injection hml with hml
            rw [hml]
            by_cases hio : p0.pid = oldPage.pid <;> by_cases hin : p0.pid = newPage.pid
            · have hiSel : i = st.selectedPageIdx := pages_pid_inj st hnodup hi0 hpOld hio
              have hiIdx : i = idx := pages_pid_inj st hnodup hi0 hIdxPage (hin.trans hNewPid)
              have hii : st.selectedPageIdx = idx := hiSel.symm.trans hiIdx
              have hon : oldPage.pid = newPage.pid := hio.symm.trans hin
              simp [hio, hin, hinv0, hiIdx, hii, hon]
            · have hiSel : i = st.selectedPageIdx := pages_pid_inj st hnodup hi0 hpOld hio
              have hine : i ≠ idx := by
                intro he
                rw [he] at hi0
                have := hi0.symm.trans hIdxPage
                injection this with hpe
                exact hin (by rw [hpe, ← hNewPid])
              have hon : oldPage.pid ≠ newPage.pid := fun he => hin (hio.trans he)
              have hne2 : st.selectedPageIdx ≠ idx := fun he => hine (hiSel.trans he)
              simp [hio, hin, hinv0, hiSel, hine, hon, hne2]
            · have hiIdx : i = idx := pages_pid_inj st hnodup hi0 hIdxPage (hin.trans hNewPid)
              have hineSel : i ≠ st.selectedPageIdx := by
                intro he
                rw [he] at hi0
                have := hi0.symm.trans hpOld
                injection this with hpe
                exact hio (by rw [hpe])
              have hno : newPage.pid ≠ oldPage.pid := fun he => hio (hin.trans he)
              have hne2 : idx ≠ st.selectedPageIdx := fun he => hineSel (hiIdx.trans he)
              simp [hio, hin, hinv0, hiIdx, hineSel, hno, hne2]
            · have hineSel : i ≠ st.selectedPageIdx := by
                intro he
                rw [he] at hi0
                have := hi0.symm.trans hpOld
                injection this with hpe
                exact hio (by rw [hpe])
              have hine : i ≠ idx := by
                intro he
                rw [he] at hi0
                have := hi0.symm.trans hIdxPage
                injection this with hpe
                exact hin (by rw [hpe, ← hNewPid])
              simp [hio, hin, hinv0, hineSel, hine]
  · intro st pid d hinv hnotsel
    unfold McpState.dialogFired
    cases hf : st.pages.find? (fun p => p.pid = pid) with
    | none => rfl
    | some p =>
      have hppid : p.pid = pid := by simpa using List.find?_some hf
      obtain ⟨i, hip⟩ := List.mem_iff_getElem?.mp (List.mem_of_find?_eq_some hf)
      have hl := dialogListenerInv_elem hinv hip
      by_cases hieq : i = st.selectedPageIdx
      · exfalso
        rw [hieq] at hip
        exact hnotsel p hip hppid
      · simp [hl, hieq]

/-- C7 witness: selecting page 1 in a concrete two-page session moves the
dialog subscription there. -/
theorem c7_dialog_listener_exclusivity_witness :
    (({ pages := [{ pid := 0, url := "a", dialogListeners := 1 },
                  { pid := 1, url := "b" }] } :
        McpState).setSelectedPageIdx 1).2.selectedPageIdx = 1 ∧
      dialogListenerInv
        (({ pages := [{ pid := 0, url := "a", dialogListeners := 1 },
                      { pid := 1, url := "b" }] } :
          McpState).setSelectedPageIdx 1).2 :=
  c7_dialog_listener_exclusivity.1
    { pages := [{ pid := 0, url := "a", dialogListeners := 1 },
                { pid := 1, url := "b" }] }
    1 _ (by decide) (by decide) rfl

/-- C5: the resource-type filter of the network-request section and the
message-type filter of the console-message section are applied before
pagination: each rendered section equals the section rendered from the
pre-filtered list with no filter set, so all pagination metadata is computed
over the post-filter set.  Concretely, 4 requests of which 2 match the filter
at page size 2 render as one page of 2 ("Showing 1-2 of 2 (Page 1 of 1)."). -/
theorem c5_filters_before_pagination :
    (∀ (requests : List HTTPRequest) (opts : NetworkOptions)
        (stableId : HTTPRequest → Nat) (fmts : Formatters),
      formatNetworkSection requests opts stableId fmts =
        formatNetworkSection (applyResourceTypeFilter opts.resourceTypes requests)
          { opts with resourceTypes := none } stableId fmts) ∧
    (∀ (messages : List ConsoleItem) (stableId : ConsoleItem → Nat)
        (opts : ConsoleOptions) (fmts : Formatters),
      consoleListPipeline messages stableId opts fmts =
        consoleListPipeline (applyConsoleTypeFilter opts.types messages) stableId
          { opts with types := none } fmts) ∧
    formatNetworkSection
        [.mk "https://a/s.js" "script" [] none none [],
         .mk "https://a/1.png" "image" [] none none [],
         .mk "https://a/2.css" "stylesheet" [] none none [],
         .mk "https://a/3.png" "image" [] none none []]
        { pagination := some { pageSize := some 2 }, resourceTypes := some ["image"] }
        (fun _ => 0)
        { shortDescriptionForRequest := fun r _ _ => r.url,
          shortDescriptionPlain := fun r _ => r.url,
          formatConsoleEventShort := fun _ => "",
          formatConsoleEventVerbose := fun _ => "",
          statusFromRequest := fun _ => "",
          formattedHeaderValue := fun _ => [],
          formattedRequestBody := fun _ => none,
          formattedResponseBody := fun _ => none } =
      ["## Network requests", "Showing 1-2 of 2 (Page 1 of 1).",
       "https://a/1.png", "https://a/3.png"] := by
  refine ⟨?_, ?_, by decide⟩
  · intro requests opts stableId fmts
    simp only [formatNetworkSection, applyResourceTypeFilter]
  · intro messages stableId opts fmts
    simp only [consoleListPipeline, formatConsoleSection, gatherConsoleListData,
      applyConsoleTypeFilter]

end DevtoolsMcp


